import Mathlib

/-!
Verification of the command execution and safety-gating subsystem of the
Terminal-Executor backend.  The Python sources are shallowly embedded:

* `CommandExecutor.execute_command` (src/backend/command_executor.py) becomes a
  pure function from the command string and the outcome of the underlying
  `subprocess.run` call to the result record it builds.
* `GeminiService._clean_command_response` and
  `GeminiService._is_dangerous_command` (src/backend/gemini_service.py) become
  pure string functions; the regular-expression patterns of the denylist are
  embedded via a small matcher covering exactly the constructs those eight
  patterns use (case-insensitive literals, word boundaries, whitespace
  repetition, character classes and a dot-star that does not cross newlines,
  as in Python `re` without `re.DOTALL`).
* `GeminiService.convert_natural_language_to_command` and the
  `/natural-language` request handler (src/backend/app.py) become functions of
  the upstream HTTP interaction's outcome.
-/

namespace TerminalExecutor

/-- Outcome of the underlying `subprocess.run` invocation inside
`execute_command`: normal completion (with the child's return code and the
captured stdout/stderr text), expiry of the timeout
(`subprocess.TimeoutExpired`), or any other exception, carrying `str(e)`. -/
inductive ProcOutcome where
  | completed (returncode : Int) (stdout : String) (stderr : String)
  | timedOut
  | exceptionRaised (msg : String)
deriving DecidableEq

/-- The dictionary returned by `CommandExecutor.execute_command`, with its five
keys `command`, `return_code`, `output`, `error`, `success`. -/
structure ExecResult where
  command : String
  return_code : Int
  output : String
  error : String
  success : Bool
deriving DecidableEq

namespace CommandExecutor

/-- `self.timeout = 30` from `CommandExecutor.__init__`. -/
def timeout : Nat := 30

/-- Embedding of `CommandExecutor.execute_command`.  The Python truthiness
tests `result.stdout if result.stdout else ''` and
`result.stderr if result.stderr else ''` are rendered as conditionals on the
string being non-empty; f-strings become string concatenation with
`toString` of the integer return code. -/
def execute_command (command : String) (outcome : ProcOutcome) : ExecResult :=
  match outcome with
  | .completed returncode stdout stderr =>
    let response_data : ExecResult :=
      { command := command
        return_code := returncode
        output := if stdout ≠ "" then stdout else ""
        error := if stderr ≠ "" then stderr else ""
        success := returncode == 0 }
    if returncode ≠ 0 then
      if stderr ≠ "" then
        { response_data with
            output := stderr
            error := "Command failed with return code " ++ toString returncode }
      else
        { response_data with
            output := "Command failed with return code " ++ toString returncode }
    else
      response_data
  | .timedOut =>
    { command := command
      return_code := -1
      output := "Command timed out (" ++ toString timeout ++ " seconds)"
      error := "Timeout"
      success := false }
  | .exceptionRaised msg =>
    { command := command
      return_code := -1
      output := "Failed to execute command: " ++ msg
      error := msg
      success := false }

end CommandExecutor

open CommandExecutor

/-- C1: in every branch of `execute_command` (normal completion with any exit
code, timeout, launch failure) the returned record satisfies
`success = (return_code = 0)`; in particular the timeout and exception
branches set `return_code = -1` and `success = false`. -/
theorem execute_command_success_iff_exit_zero (c : String) (o : ProcOutcome) :
    (execute_command c o).success = true ↔ (execute_command c o).return_code = 0 := by
  cases o with
  | completed rc stdout stderr =>
    by_cases h : rc = 0
    · subst h; simp [execute_command]
    · simp only [execute_command]
      split_ifs <;> simp [h]
  | timedOut => simp [execute_command]
  | exceptionRaised msg => simp [execute_command]

/-- C3: the timeout branch of `execute_command` returns exactly the record
with `return_code = -1`, `output = "Command timed out (30 seconds)"`,
`error = "Timeout"`, `success = false` and the input command echoed back. -/
theorem execute_command_timeout (c : String) :
    execute_command c ProcOutcome.timedOut =
      { command := c
        return_code := -1
        output := "Command timed out (30 seconds)"
        error := "Timeout"
        success := false } := rfl

/-- C6: the generic exception branch of `execute_command` returns a record
(never propagates the exception) with `return_code = -1`, an `output` that
embeds the exception description, `error` equal to the exception description,
and `success = false`. -/
theorem execute_command_exception (c msg : String) :
    execute_command c (ProcOutcome.exceptionRaised msg) =
      { command := c
        return_code := -1
        output := "Failed to execute command: " ++ msg
        error := msg
        success := false } := rfl

/-- C5 counterexample: on normal completion with exit code 0 and non-empty
captured stderr, the returned record's `error` field is exactly the captured
stderr text — stderr is NOT discarded and `error` is not empty, contrary to
the claim that it appears in no field of the result. -/
theorem success_stderr_not_discarded :
    (execute_command "make" (ProcOutcome.completed 0 "built" "warning: deprecated")).success = true ∧
    (execute_command "make" (ProcOutcome.completed 0 "built" "warning: deprecated")).error
      = "warning: deprecated" ∧
    ("warning: deprecated" : String) ≠ "" := by
  refine ⟨rfl, rfl, ?_⟩
  decide

/-- C5 amended: on normal completion with exit code 0, `output` is the
captured stdout, `success` is true, and `error` is the captured stderr text
(so empty exactly when no stderr was captured): stderr is surfaced in the
`error` field, not discarded. -/
theorem execute_command_exit_zero (c stdout stderr : String) :
    execute_command c (ProcOutcome.completed 0 stdout stderr) =
      { command := c
        return_code := 0
        output := stdout
        error := stderr
        success := true } := by
  by_cases h1 : stdout = "" <;> by_cases h2 : stderr = "" <;>
    simp [execute_command, h1, h2]

/-- C2 counterexample: a completed process with exit code 0 and stderr text
`"perm hint"` yields `success = true` together with a non-empty `error`
field, refuting the invariant that `error` is non-empty iff `success` is
false. -/
theorem error_nonempty_on_success_case :
    (execute_command "ls" (ProcOutcome.completed 0 "" "perm hint")).success = true ∧
    (execute_command "ls" (ProcOutcome.completed 0 "" "perm hint")).error ≠ "" := by
  refine ⟨rfl, ?_⟩
  decide

/-- Side condition under which the claimed error/success invariant does hold:
on normal completion the captured stderr is empty exactly on exit code 0, and
a launch-failure exception carries a non-empty description. -/
def StderrConsistent : ProcOutcome → Prop
  | .completed rc _ stderr => (rc = 0 → stderr = "") ∧ (rc ≠ 0 → stderr ≠ "")
  | .timedOut => True
  | .exceptionRaised msg => msg ≠ ""

/-- C2 amended: for outcomes whose captured stderr is empty on exit code 0 and
non-empty on non-zero exit, and whose exception description is non-empty, the
returned record's `error` field is non-empty iff `success` is false
(unconditionally so in the timeout branch). -/
theorem error_nonempty_iff_failure (c : String) (o : ProcOutcome)
    (h : StderrConsistent o) :
    (execute_command c o).error ≠ "" ↔ (execute_command c o).success = false := by
  cases o with
  | completed rc stdout stderr =>
    obtain ⟨h0, h1⟩ := h
    by_cases hrc : rc = 0
    · subst hrc
      simp [execute_command, h0 rfl]
    · have hne : stderr ≠ "" := h1 hrc
      have hlen : ("Command failed with return code " ++ toString rc) ≠ "" := by
        intro hcon
        have h2 := congrArg String.length hcon
        rw [String.length_append] at h2
        rw [show ("Command failed with return code ").length = 32 from rfl] at h2
        rw [show ("" : String).length = 0 from rfl] at h2
        omega
      simp [execute_command, hrc, hne, hlen]
  | timedOut =>
    simp [execute_command]
  | exceptionRaised msg =>
    have h' : msg ≠ "" := h
    simp [execute_command, h']

/-- Witness for `error_nonempty_iff_failure` at the concrete outcome of a
process exiting 2 with stderr `"boom"`. -/
theorem error_nonempty_iff_failure_witness :
    StderrConsistent (ProcOutcome.completed 2 "" "boom") ∧
    ((execute_command "x" (ProcOutcome.completed 2 "" "boom")).error ≠ "" ↔
      (execute_command "x" (ProcOutcome.completed 2 "" "boom")).success = false) :=
  have hc : StderrConsistent (ProcOutcome.completed 2 "" "boom") :=
    ⟨fun h => absurd h (by decide), fun _ => by decide⟩
  ⟨hc, error_nonempty_iff_failure "x" (ProcOutcome.completed 2 "" "boom") hc⟩

/-- C4 counterexample: on normal completion with non-zero exit code and EMPTY
stderr, the `output` field is set to the fixed message but the `error` field
is left as the empty string — it does not state the fixed message. -/
theorem failure_empty_stderr_error_left_empty :
    (execute_command "cat nofile" (ProcOutcome.completed 1 "" "")).output
      = "Command failed with return code 1" ∧
    (execute_command "cat nofile" (ProcOutcome.completed 1 "" "")).error = "" ∧
    ("" : String) ≠ "Command failed with return code 1" := by
  refine ⟨rfl, rfl, ?_⟩
  decide

/-- C4 amended: on normal completion with exit code `rc ≠ 0`: if stderr is
non-empty, `output` is the stderr text and `error` is
`"Command failed with return code <rc>"`; if stderr is empty, `output` is that
fixed message and `error` is left as the EMPTY string; `success` is false in
both sub-cases. -/
theorem execute_command_nonzero_exit (c stdout stderr : String) (rc : Int)
    (h : rc ≠ 0) :
    (stderr ≠ "" →
      execute_command c (ProcOutcome.completed rc stdout stderr) =
        { command := c
          return_code := rc
          output := stderr
          error := "Command failed with return code " ++ toString rc
          success := false }) ∧
    (stderr = "" →
      execute_command c (ProcOutcome.completed rc stdout stderr) =
        { command := c
          return_code := rc
          output := "Command failed with return code " ++ toString rc
          error := ""
          success := false }) := by
  constructor
  · intro hne
    simp [execute_command, h, hne]
  · intro he
    subst he
    by_cases h1 : stdout = "" <;> simp [execute_command, h, h1]

/-- Witness for `execute_command_nonzero_exit` at exit code 2 with stderr
`"no such file"`. -/
theorem execute_command_nonzero_exit_witness :
    (2 : Int) ≠ 0 ∧
    execute_command "ls missing" (ProcOutcome.completed 2 "" "no such file") =
      { command := "ls missing"
        return_code := 2
        output := "no such file"
        error := "Command failed with return code " ++ toString (2 : Int)
        success := false } :=
  ⟨by decide,
   (execute_command_nonzero_exit "ls missing" "" "no such file" 2 (by decide)).1
     (by decide)⟩

/-! ### Safety Gate: `GeminiService._is_dangerous_command`

The eight denylist regexes use only: literal characters (matched
case-insensitively under `re.IGNORECASE`), the word-boundary assertion `\b`,
whitespace repetition `\s+` / `\s*`, the character classes `[sq]` and
`[a-z]`, and `.*` (which in Python `re` does not match a newline).  We embed
them with a matcher over exactly these constructs. -/

/-- Python `\w` (ASCII range): letters, digits and underscore. -/
def isWordChar (c : Char) : Bool := c.isAlphanum || c = '_'

/-- Python `\s` (ASCII range): space, tab, newline, carriage return,
vertical tab, form feed. -/
def isPySpace (c : Char) : Bool :=
  c = ' ' || c = '\t' || c = '\n' || c = '\r' || c = '\x0b' || c = '\x0c'

/-- The regex constructs appearing in the denylist patterns. -/
inductive RE where
  | lit (c : Char)
  | wordB
  | ws1
  | ws0
  | cls (alts : List Char)
  | anyStar
deriving DecidableEq

/-- `\b` holds at a position iff exactly one of the adjacent characters is a
word character (start/end of string count as non-word). -/
def boundaryOk (prev : Option Char) (next : Option Char) : Bool :=
  (match prev with | none => false | some c => isWordChar c)
    != (match next with | none => false | some c => isWordChar c)

/-- A starred construct: consume any number of characters satisfying `test`,
then match the continuation `k` (tried at every intermediate position, which
gives the same accepted set as greedy matching with backtracking). -/
def matchStar (test : Char → Bool) (k : Option Char → List Char → Bool) :
    Option Char → List Char → Bool
  | prev, [] => k prev []
  | prev, d :: ds => k prev (d :: ds) || (test d && matchStar test k (some d) ds)

/-- Does the pattern match some prefix of the input?  `prev` is the character
just before the current position (for `\b`).  Literals and classes compare
lower-cased characters, mirroring `re.IGNORECASE`; `anyStar` never consumes a
newline, mirroring `.` without `re.DOTALL`; `\s+` is one whitespace character
followed by `\s*`. -/
def matchAt : List RE → Option Char → List Char → Bool
  | [], _, _ => true
  | RE.lit _ :: _, _, [] => false
  | RE.lit c :: ps, _, d :: ds => (d.toLower == c.toLower) && matchAt ps (some d) ds
  | RE.wordB :: ps, prev, input => boundaryOk prev input.head? && matchAt ps prev input
  | RE.ws1 :: _, _, [] => false
  | RE.ws1 :: ps, _, d :: ds => isPySpace d && matchStar isPySpace (matchAt ps) (some d) ds
  | RE.ws0 :: ps, prev, input => matchStar isPySpace (matchAt ps) prev input
  | RE.cls _ :: _, _, [] => false
  | RE.cls alts :: ps, _, d :: ds => alts.contains d.toLower && matchAt ps (some d) ds
  | RE.anyStar :: ps, prev, input => matchStar (fun d => !(d == '\n')) (matchAt ps) prev input

/-- `re.search`: the pattern matches starting at some position of the input.
`prev` carries the character before the current start position. -/
def reSearch (p : List RE) : Option Char → List Char → Bool
  | prev, [] => matchAt p prev []
  | prev, d :: ds => matchAt p prev (d :: ds) || reSearch p (some d) ds

/-- `re.search(pattern, command, re.IGNORECASE)` viewed as a Boolean. -/
def re_search (p : List RE) (s : String) : Bool := reSearch p none s.data

/-- A run of literal characters. -/
def lits (s : String) : List RE := s.data.map RE.lit

/-- The `dangerous_patterns` list of `GeminiService._is_dangerous_command`,
in source order:
`\brm\s+-rf\s+/`, `\bformat\b`, `\bdel\s+/[sq]`, `>\s*/dev/sd[a-z]`,
`\bdd\s+if=.*of=/dev/`, `\bshutdown\b`, `\breboot\b`, `\bhalt\b`. -/
def dangerous_patterns : List (List RE) :=
  [ [RE.wordB] ++ lits "rm" ++ [RE.ws1] ++ lits "-rf" ++ [RE.ws1] ++ lits "/"
  , [RE.wordB] ++ lits "format" ++ [RE.wordB]
  , [RE.wordB] ++ lits "del" ++ [RE.ws1] ++ lits "/" ++ [RE.cls ['s', 'q']]
  , lits ">" ++ [RE.ws0] ++ lits "/dev/sd" ++ [RE.cls "abcdefghijklmnopqrstuvwxyz".data]
  , [RE.wordB] ++ lits "dd" ++ [RE.ws1] ++ lits "if=" ++ [RE.anyStar] ++ lits "of=/dev/"
  , [RE.wordB] ++ lits "shutdown" ++ [RE.wordB]
  , [RE.wordB] ++ lits "reboot" ++ [RE.wordB]
  , [RE.wordB] ++ lits "halt" ++ [RE.wordB] ]

/-- Embedding of `GeminiService._is_dangerous_command`: true iff some
denylist pattern is found in the command. -/
def _is_dangerous_command (command : String) : Bool :=
  dangerous_patterns.any fun pattern => re_search pattern command

example : _is_dangerous_command "rm -rf /" = true := by decide
example : _is_dangerous_command "sudo RM  -RF /var" = true := by decide
example : _is_dangerous_command "please FORMAT the disk" = true := by decide
example : _is_dangerous_command "DEL /S temp" = true := by decide
example : _is_dangerous_command "echo x > /Dev/SDA" = true := by decide
example : _is_dangerous_command "DD if=/x of=/dev/sdb" = true := by decide
example : _is_dangerous_command "SHUTDOWN -h now" = true := by decide
example : _is_dangerous_command "sudo Reboot" = true := by decide
example : _is_dangerous_command "HALT" = true := by decide
example : _is_dangerous_command "ls -la" = false := by decide
example : _is_dangerous_command "echo format2" = false := by decide
example : _is_dangerous_command "_format_" = false := by decide
example : _is_dangerous_command "xrm -rf /" = false := by decide
example : _is_dangerous_command "dd if=a\nof=/dev/sda" = false := by decide
example : _is_dangerous_command ">/dev/sdz" = true := by decide
example : _is_dangerous_command "del /q" = true := by decide

/-- C7: `_is_dangerous_command` is a pure function of the command string; it
returns true for every command in which `re.search` (case-insensitive) finds
one of the eight denylist patterns, and false for the ordinary commands
`"ls -la"`, `"pwd"` and `"df -h"`. -/
theorem is_dangerous_denylist_spec :
    (∀ command : String,
      (∃ p ∈ dangerous_patterns, re_search p command = true) →
        _is_dangerous_command command = true) ∧
    _is_dangerous_command "ls -la" = false ∧
    _is_dangerous_command "pwd" = false ∧
    _is_dangerous_command "df -h" = false := by
  refine ⟨?_, by decide, by decide, by decide⟩
  intro command hp
  obtain ⟨p, hmem, hmatch⟩ := hp
  exact List.any_eq_true.mpr ⟨p, hmem, hmatch⟩

/-- Witness for `is_dangerous_denylist_spec` at the mixed-case command
`"sudo RM -rf /var"`, which contains the first denylist pattern. -/
theorem is_dangerous_denylist_spec_witness :
    (∃ p ∈ dangerous_patterns, re_search p "sudo RM -rf /var" = true) ∧
    _is_dangerous_command "sudo RM -rf /var" = true :=
  ⟨by decide, is_dangerous_denylist_spec.1 "sudo RM -rf /var" (by decide)⟩

/-! ### Response cleanup: `GeminiService._clean_command_response` -/

/-- Drop characters up to and including the first newline; `none` when the
list has no newline. -/
def dropThroughNewline : List Char → Option (List Char)
  | [] => none
  | '\n' :: rest => some rest
  | _ :: rest => dropThroughNewline rest

/-- `re.sub(r'^```.*?\n', '', s)`: when `s` starts with three backticks and a
newline occurs later, remove everything up to and including the first newline
(`.` cannot match a newline, so the non-greedy match ends at the first one);
otherwise there is no match and `s` is returned unchanged. -/
def subFenceOpen (s : String) : String :=
  match s.data with
  | '\x60' :: '\x60' :: '\x60' :: rest =>
    match dropThroughNewline rest with
    | some r => String.mk r
    | none => s
  | _ => s

/-- `re.sub(r'\n```$', '', s)`: `$` matches at the end of the string or just
before a final trailing newline, so the occurrence of `"\n```"` is removed
when `s` ends with it, and also when `s` ends with it followed by exactly one
final newline (which stays). -/
def subFenceClose (s : String) : String :=
  let cs := s.data
  if cs.reverse.take 4 == ['\x60', '\x60', '\x60', '\n'] then
    String.mk (cs.take (cs.length - 4))
  else if cs.reverse.take 5 == ['\n', '\x60', '\x60', '\x60', '\n'] then
    String.mk (cs.take (cs.length - 5) ++ ['\n'])
  else s

/-- Python `str.strip()` (ASCII whitespace): drop leading and trailing
whitespace characters. -/
def pyStrip (s : String) : String :=
  String.mk (((s.data.dropWhile isPySpace).reverse.dropWhile isPySpace).reverse)

/-- Python `s.split('\n')[0]`: the characters before the first newline. -/
def firstLine (s : String) : String :=
  String.mk (s.data.takeWhile fun c => !(c == '\n'))

/-- Embedding of `GeminiService._clean_command_response`.  Faithfully to the
source, the second `re.sub` is applied to the original `command_text`, not to
the result of the first substitution — the first assignment is a dead store
(src/backend/gemini_service.py lines 90–91). -/
def _clean_command_response (command_text : String) : String :=
  let command := subFenceOpen command_text
  let command := subFenceClose command_text
  let command := pyStrip command
  let command := firstLine command
  pyStrip command

example : _clean_command_response "ls -la" = "ls -la" := by decide
example : _clean_command_response "  ls -la\n" = "ls -la" := by decide
example : _clean_command_response "ls -la\necho hi" = "ls -la" := by decide

/-- C9 (evaluation at the failing input): for a model response wrapped in a
code fence, the cleanup returns the OPENING FENCE MARKER `"```bash"`, not the
command `"ls -la"` inside the fence: line 91 of gemini_service.py applies its
substitution to `command_text` instead of to `command`, so the removal of the
opening fence computed on line 90 is discarded.  The second conjunct shows
what line 90 alone produces, confirming the dead store. -/
theorem clean_command_response_fenced_keeps_fence_marker :
    _clean_command_response "```bash\nls -la\n```" = "```bash" ∧
    subFenceOpen "```bash\nls -la\n```" = "ls -la\n```" := by
  exact ⟨by decide, by decide⟩

/-! ### Translation: `GeminiService.convert_natural_language_to_command`
and the `/natural-language` handler `process_natural_language` -/

/-- The upstream HTTP interaction of `convert_natural_language_to_command`,
as the code observes it after `requests.post`: a response carrying its status
code, body text and — when the parsed JSON has a non-empty `candidates` list
with the nested `candidates[0]['content']['parts'][0]['text']` present — that
candidate text; or one of the exceptions the code catches.  A malformed
nested payload raises and is caught by the generic `except Exception` branch,
covered here by `otherErr`. -/
inductive HttpOutcome where
  | response (status_code : Int) (body : String) (candidate : Option String)
  | timeoutErr
  | requestErr (msg : String)
  | otherErr (msg : String)
deriving DecidableEq

/-- Embedding of `GeminiService.convert_natural_language_to_command`,
returning the Python pair `(command, error_message)`. -/
def convert_natural_language_to_command (is_configured : Bool)
    (upstream : HttpOutcome) : Option String × Option String :=
  if !is_configured then
    (none, some "Gemini API is not configured. Please set GEMINI_API_KEY in environment variables.")
  else
    match upstream with
    | .response status_code body candidate =>
      if status_code ≠ 200 then
        (none, some ("Gemini API error: " ++ toString status_code ++ " - " ++ body))
      else
        match candidate with
        | none => (none, some "No response from Gemini API")
        | some command_text =>
          let command := _clean_command_response command_text
          if _is_dangerous_command command then
            (none, some "Command rejected for safety reasons.")
          else
            (some command, none)
    | .timeoutErr => (none, some "Gemini API request timed out")
    | .requestErr msg => (none, some ("Network error: " ++ msg))
    | .otherErr msg => (none, some ("Error converting natural language: " ++ msg))

/-- Flask response of the `/natural-language` handler: HTTP 400 with an error
message, or HTTP 200 with the converted command and its execution result. -/
inductive NLResponse where
  | badRequest (error : String)
  | ok (converted_command : String) (result : ExecResult)
deriving DecidableEq

/-- Python truthiness of an `Optional[str]`: `None` and `""` are falsy. -/
def truthyStr : Option String → Bool
  | none => false
  | some s => !(s == "")

/-- Embedding of `process_natural_language` (src/backend/app.py): strip and
empty-check the query, call the translation, `if error:` → 400 with the
error, `if not converted_command:` → 400, otherwise execute the converted
command and answer 200 with the result.  `upstream` is the outcome of the
Gemini HTTP interaction and `proc` that of the subprocess invocation. -/
def process_natural_language (query : String) (is_configured : Bool)
    (upstream : HttpOutcome) (proc : ProcOutcome) : NLResponse :=
  let q := pyStrip query
  if q == "" then NLResponse.badRequest "Empty query"
  else
    let res := convert_natural_language_to_command is_configured upstream
    if truthyStr res.2 then
      NLResponse.badRequest (res.2.getD "")
    else if !truthyStr res.1 then
      NLResponse.badRequest "Could not convert query to command"
    else
      let c := res.1.getD ""
      NLResponse.ok c (execute_command c proc)

/-- C8: when the upstream 200 response carries candidate text whose cleaned
form matches the denylist, the translation returns no command together with
the fixed safety-rejection reason, and the handler answers 400 with exactly
that reason — in particular the response embeds no execution result, so the
Executor is never invoked on the candidate. -/
theorem dangerous_candidate_rejected (query body text : String)
    (proc : ProcOutcome)
    (hq : pyStrip query ≠ "")
    (hd : _is_dangerous_command (_clean_command_response text) = true) :
    convert_natural_language_to_command true (HttpOutcome.response 200 body (some text)) =
      (none, some "Command rejected for safety reasons.") ∧
    process_natural_language query true (HttpOutcome.response 200 body (some text)) proc =
      NLResponse.badRequest "Command rejected for safety reasons." := by
  have hconv : convert_natural_language_to_command true
      (HttpOutcome.response 200 body (some text)) =
      (none, some "Command rejected for safety reasons.") := by
    simp [convert_natural_language_to_command, hd]
  refine ⟨hconv, ?_⟩
  simp [process_natural_language, hconv, truthyStr, hq]

/-- Witness for `dangerous_candidate_rejected`: the candidate `"rm -rf /"`
is rejected and never executed. -/
theorem dangerous_candidate_rejected_witness :
    pyStrip "delete everything from root" ≠ "" ∧
    _is_dangerous_command (_clean_command_response "rm -rf /") = true ∧
    process_natural_language "delete everything from root" true
      (HttpOutcome.response 200 "" (some "rm -rf /")) ProcOutcome.timedOut =
      NLResponse.badRequest "Command rejected for safety reasons." :=
  ⟨by decide, by decide,
   (dangerous_candidate_rejected "delete everything from root" "" "rm -rf /"
     ProcOutcome.timedOut (by decide) (by decide)).2⟩

/-- C10 counterexample: an upstream 200 response whose candidate text is the
empty string yields the pair `(some "", none)` — an EMPTY command string with
no error — contradicting the claim that the success side always carries a
non-empty command. -/
theorem convert_empty_candidate_no_error :
    convert_natural_language_to_command true (HttpOutcome.response 200 "" (some "")) =
      (some "", none) := by decide

/-- C10 amended: the translation returns exactly one of a candidate command
string with no error, or an error reason with no command — never both, never
neither — but the command string of the success side may be empty (when the
cleaned model response is empty). -/
theorem convert_command_xor_error (is_configured : Bool) (upstream : HttpOutcome) :
    ((convert_natural_language_to_command is_configured upstream).1.isSome = true ∧
      (convert_natural_language_to_command is_configured upstream).2 = none) ∨
    ((convert_natural_language_to_command is_configured upstream).1 = none ∧
      (convert_natural_language_to_command is_configured upstream).2.isSome = true) := by
  unfold convert_natural_language_to_command
  cases is_configured with
  | false => simp
  | true =>
    cases upstream with
    | response status_code body candidate =>
      by_cases hs : status_code = 200
      · subst hs
        cases candidate with
        | none => simp
        | some t =>
          by_cases hd : _is_dangerous_command (_clean_command_response t) = true <;>
            simp [hd]
      · simp [hs]
    | timeoutErr => simp
    | requestErr msg => simp
    | otherErr msg => simp

end TerminalExecutor
